import Mathlib

/-!
Verification of the `ianews` repository: four near-duplicate Python scripts
that fetch AI news from NewsAPI, optionally enrich them through an LLM, and
email the result.  Strings are embedded as `List Char`; provider responses,
environment contents and external-call outcomes are explicit data so that the
scripts' pure decision logic (filtering, formatting, parsing, error paths)
becomes a family of total Lean functions mirroring the source.
-/

set_option linter.unusedVariables false
set_option maxRecDepth 8192

/-- Strings of the scripts, embedded as character lists. -/
abbrev Str := List Char

/-- Coerce a Lean string literal to the embedding. -/
def str (s : String) : Str := s.data

/-- The single-quote character (used by the scripts inside HTML attributes). -/
def squote : Char := Char.ofNat 39

/-- Python truthiness of an optional string (`None` and `""` are falsy). -/
def truthy : Option Str → Bool
  | none => false
  | some s => !s.isEmpty

/-- Python `a or b` for an optional string `a` and a string default `b`. -/
def py_or (a : Option Str) (b : Str) : Str :=
  match a with
  | none => b
  | some s => if s.isEmpty then b else s

/-- Python `sep.join(parts)` (the separator goes between consecutive parts). -/
def joinSep (sep : Str) : List Str → Str
  | [] => []
  | [x] => x
  | x :: y :: xs => x ++ sep ++ joinSep sep (y :: xs)

/-- Number of positions at which `p` occurs as a contiguous substring of `s`
(one test per suffix of `s`, including the empty suffix). -/
def countOccs (p : Str) : Str → Nat
  | [] => if p.isPrefixOf ([] : Str) then 1 else 0
  | c :: s => (if p.isPrefixOf (c :: s) then 1 else 0) + countOccs p s

/- ───────── Python string primitives used by the scripts ───────── -/

/-- Python `str.strip(chars)`: remove the characters of `cs` from both ends. -/
def pyStrip (cs : Str) (s : Str) : Str :=
  ((s.dropWhile (fun c => cs.contains c)).reverse.dropWhile
      (fun c => cs.contains c)).reverse

/-- The whitespace characters stripped by a bare Python `str.strip()`. -/
def pyWs : Str := [' ', '\t', '\n', '\r', Char.ofNat 11, Char.ofNat 12]

/-- Python `s.split(sep, 1)` for a one-character separator: the part before the
first separator, and (when a separator exists) the remainder after it. -/
def pySplit1 (sep : Char) : Str → Str × Option Str
  | [] => ([], none)
  | c :: s =>
    if c = sep then ([], some s)
    else
      let r := pySplit1 sep s
      (c :: r.1, r.2)

/-- Python `s.split(sep)` for a one-character separator (`"".split(sep)` is
`[""]`, and every separator opens a new segment). -/
def pySplitAll (sep : Char) : Str → List Str
  | [] => [[]]
  | c :: s =>
    if c = sep then [] :: pySplitAll sep s
    else
      match pySplitAll sep s with
      | [] => [[c]]
      | h :: t => (c :: h) :: t

/-- Fuel-driven worker for `pyReplaceDel` (structural recursion on the fuel so
that concrete runs reduce inside `decide`). -/
def pyReplaceDelAux (pat : Str) : Nat → Str → Str
  | 0, s => s
  | _ + 1, [] => []
  | n + 1, c :: s =>
    if pat.isPrefixOf (c :: s) && !pat.isEmpty then
      pyReplaceDelAux pat n (s.drop (pat.length - 1))
    else
      c :: pyReplaceDelAux pat n s

/-- Python `s.replace(pat, "")` for a non-empty pattern: delete every
occurrence, scanning left to right without overlap. -/
def pyReplaceDel (pat s : Str) : Str := pyReplaceDelAux pat s.length s

/-- Loop shape shared by the fetchers of `ai_news_agent_openai.py` (lines
71-82) and `send_ai_news.py` (lines 76-82): walk the provider articles in
order, break once `maxA` entries are collected, keep an entry only when the
extractor accepts it; `n` is the number already collected. -/
def collect {α β : Type} (maxA : Nat) (mk : α → Option β) : List α → Nat → List β
  | [], _ => []
  | a :: rest, n =>
    if n = maxA then []
    else
      match mk a with
      | some b => b :: collect maxA mk rest (n + 1)
      | none => collect maxA mk rest n

namespace Agent

/-- Raw provider article as `buscar_artigos` reads it with `.get`: any field
may be absent (`none`) or present, possibly empty.  The source name models the
nested `art.get("source", \x7b\x7d).get("name", "")` lookup. -/
structure Article where
  title : Option Str
  description : Option Str
  url : Option Str
  source_name : Option Str

/-- Provider JSON envelope of `ai_news_agent_openai.py`: `status`, optional
`message`, and the article list (`data.get("articles", [])`). -/
structure NewsResponse where
  status : Option Str
  message : Option Str
  articles : List Article

/-- Dict appended by `buscar_artigos` for each kept article (lines 76-81). -/
structure Item where
  title : Str
  description : Str
  url : Str
  source : Str
deriving DecidableEq

/-- Line 40 of `ai_news_agent_openai.py`. -/
def MAX_ARTIGOS : Nat := 10

/-- Filter and projection applied per article (lines 75-81): keep the entry
only when title and url are both truthy. -/
def mk_item (a : Article) : Option Item :=
  if truthy a.title && truthy a.url then
    some ⟨a.title.getD [], a.description.getD [], a.url.getD [], a.source_name.getD []⟩
  else none

/-- Embeds `buscar_artigos` (lines 60-82) applied to an already-parsed
provider response: non-"ok" status raises `RuntimeError` with the provider
message (default "Erro NewsAPI"); otherwise the bounded filtered list. -/
def buscar_artigos (r : NewsResponse) : Except Str (List Item) :=
  if r.status = some (str "ok") then
    Except.ok (collect MAX_ARTIGOS mk_item r.articles 0)
  else
    Except.error (r.message.getD (str "Erro NewsAPI"))

/-- Characters stripped from the title line: `strip(" •-")` (line 99). -/
def TITULO_MARKS : Str := [' ', '•', '-']

/-- Characters stripped from each summary line: `strip(" •")` (lines 101-102). -/
def BULLET_MARKS : Str := [' ', '•']

/-- Pattern deleted from the title line by `.replace("TÍTULO:", "")`. -/
def TITULO_PAT : Str := str "TÍTULO:"

/-- Result dict of `resumo_ai` (line 103). -/
structure Resumo where
  titulo : Str
  resumo_html : Str
  resumo_txt : Str
deriving DecidableEq

/-- Embeds the response parsing of `resumo_ai` (lines 97-103) applied to the
raw completion text: outer `strip()`, `split("\n", 1)`, title cleanup,
blank-line filtering and bullet stripping of the summary lines, joined with
`<br>` for HTML and newlines for plain text. -/
def resumo_ai (raw : Str) : Resumo :=
  let content := pyStrip pyWs raw
  let partes := pySplit1 '\n' content
  let titulo_pt := pyStrip TITULO_MARKS (pyReplaceDel TITULO_PAT partes.1)
  let resumo := (partes.2).getD []
  let kept := (pySplitAll '\n' resumo).filter (fun ln => !(pyStrip pyWs ln).isEmpty)
  let cleaned := kept.map (pyStrip BULLET_MARKS)
  ⟨titulo_pt, joinSep (str "<br>") cleaned, joinSep ['\n'] cleaned⟩

/-- The fields of an enriched article that `montar_email` reads (line 140
merges the fetched dict with the `resumo_ai` dict). -/
structure Enriched where
  titulo : Str
  resumo_html : Str
  resumo_txt : Str
  url : Str
deriving DecidableEq

/-- Static fragment "\nLink: " of the plain-text block (line 117). -/
def S_LINK : Str := str "\nLink: "

/-- One plain-text block of `montar_email` (line 117), including the trailing
newline of the f-string. -/
def txt_block (it : Enriched) : Str :=
  it.titulo ++ ['\n'] ++ it.resumo_txt ++ S_LINK ++ it.url ++ ['\n']

/-- Plain-text body: `"\n".join(txt)` (line 125). -/
def txt_body (items : List Enriched) : Str :=
  joinSep ['\n'] (items.map txt_block)

/-- Opening fragment of the HTML body (line 114). -/
def HTML_HEADER : Str := str "<h1>📰 IA: Manchetes & Resumos</h1><ol>"

/-- Static fragments of one HTML list item (lines 119-120). -/
def S_LI : Str := str "<li><strong>"

/-- Fragment between the title and the HTML summary. -/
def S_STRONG_BR : Str := str "</strong><br>"

/-- Fragment opening the anchor, up to and including the quote before the URL. -/
def S_BR_HREF : Str := str "<br><a href=" ++ [squote]

/-- Fragment between the href URL and the anchor text. -/
def S_QUOTE_GT : Str := [squote, '>']

/-- Fragment closing the anchor and the list item. -/
def S_CLOSE_A : Str := str "</a></li>"

/-- Closing fragment of the HTML body (line 123). -/
def HTML_FOOTER : Str :=
  str "</ol><p style=" ++ [squote] ++ str "font-size:0.8em;color:#666" ++ [squote] ++
    str ">Enviado via GitHub Actions + OpenAI API.</p>"

/-- One HTML list item of `montar_email` (lines 118-121); the URL appears both
in the href attribute and as the anchor text. -/
def html_block (it : Enriched) : Str :=
  S_LI ++ it.titulo ++ S_STRONG_BR ++ it.resumo_html ++ S_BR_HREF ++ it.url ++
    S_QUOTE_GT ++ it.url ++ S_CLOSE_A

/-- HTML body: `"".join(html)` where `html` is the header, one item per
article, and the footer (lines 114-126). -/
def html_body (items : List Enriched) : Str :=
  (HTML_HEADER :: items.map html_block ++ [HTML_FOOTER]).flatten

/-- Environment of `ai_news_agent_openai.py` (lines 35-39). -/
structure Env where
  news_api_key : Option Str
  openai_api_key : Option Str
  email_from : Option Str
  email_password : Option Str
  email_to : Option Str

/-- Keys of the `required` dict (lines 42-47), in insertion order. -/
def required_names : List Str :=
  [str "NEWS_API_KEY", str "OPENAI_API_KEY", str "EMAIL_FROM", str "EMAIL_PASSWORD"]

/-- Lookup of a required key in the environment. -/
def env_get (e : Env) (k : Str) : Option Str :=
  if k = str "NEWS_API_KEY" then e.news_api_key
  else if k = str "OPENAI_API_KEY" then e.openai_api_key
  else if k = str "EMAIL_FROM" then e.email_from
  else if k = str "EMAIL_PASSWORD" then e.email_password
  else none

/-- The list comprehension of line 48: required keys whose value is falsy. -/
def missing (e : Env) : List Str :=
  required_names.filter (fun k => !truthy (env_get e k))

/-- Startup check (lines 48-51): write the diagnostic naming every missing
variable and exit 1, before any function of the script can run. -/
def config_check (e : Env) : Except Str Unit :=
  if missing e = [] then Except.ok ()
  else Except.error (str "Faltam variáveis: " ++ joinSep (str ", ") (missing e) ++ ['\n'])

/-- Line 39: `os.getenv("EMAIL_TO", EMAIL_FROM or "")` — the default applies
only when the variable is unset. -/
def EMAIL_TO (e : Env) : Str :=
  match e.email_to with
  | some t => t
  | none => py_or e.email_from []

/-- Outcome of the search request of line 67: a parsed response, or a raised
requests/JSON error (network failure, timeout, malformed body). -/
inductive FetchOutcome where
  | response (r : NewsResponse)
  | net_error (m : Str)

/-- Outcome of the SMTP session of `enviar` (lines 130-133). -/
inductive SmtpOutcome where
  | ok
  | smtp_error (m : Str)

/-- Observable result of one run of `main` (lines 137-146). -/
structure Run where
  exit_code : Nat
  email_composed : Bool
  email_sent : Bool
  stdout_msg : Option Str
  stderr_msg : Option Str

/-- The `except` branch of `main` (lines 144-146). -/
def fatal (m : Str) (composed : Bool) : Run :=
  ⟨1, composed, false, none, some (str "Falha: " ++ m ++ ['\n'])⟩

/-- Embeds `main` (lines 137-146) over the outcomes of its three external
interactions: the search call, the per-article enrichment calls (`some m`
models a raised exception with message `m`), and the SMTP session.  Every
exception reaches the single handler, which prints to stderr and exits 1. -/
def main (f : FetchOutcome) (enrich_fail : Option Str) (s : SmtpOutcome) : Run :=
  let fetched : Except Str (List Item) :=
    match f with
    | .net_error m => Except.error m
    | .response r => buscar_artigos r
  match fetched with
  | .error m => fatal m false
  | .ok _ =>
    match enrich_fail with
    | some m => fatal m false
    | none =>
      match s with
      | .smtp_error m => fatal m true
      | .ok => ⟨0, true, true, some (str "E-mail enviado com sucesso."), none⟩

end Agent

namespace Pipeline

/-- Headline dict appended by `fetch_ai_headlines` (send_ai_news.py line 81). -/
structure Headline where
  title : Str
  url : Str
deriving DecidableEq

/-- Line 63 of `send_ai_news.py`: the pipeline variant keeps at most 3. -/
def MAX_ARTIGOS : Nat := 3

/-- Filter and projection applied per article (lines 80-81). -/
def mk_headline (a : Agent.Article) : Option Headline :=
  if truthy a.title && truthy a.url then
    some ⟨a.title.getD [], a.url.getD []⟩
  else none

/-- Embeds `fetch_ai_headlines` (lines 65-82) applied to an already-parsed
provider response; the envelope handling is identical to the agent variant. -/
def fetch_ai_headlines (r : Agent.NewsResponse) : Except Str (List Headline) :=
  if r.status = some (str "ok") then
    Except.ok (collect MAX_ARTIGOS mk_headline r.articles 0)
  else
    Except.error (r.message.getD (str "Erro NewsAPI"))

/-- Environment of `send_ai_news.py` (lines 45-58). -/
structure Env where
  news_api_key : Option Str
  openai_api_key : Option Str
  serper_api_key : Option Str
  email_from : Option Str
  email_password : Option Str
  email_to : Option Str

/-- Keys of the `ENV` dict (lines 45-51), in insertion order. -/
def required_names : List Str :=
  [str "NEWS_API_KEY", str "OPENAI_API_KEY", str "SERPER_API_KEY",
    str "EMAIL_FROM", str "EMAIL_PASSWORD"]

/-- Lookup of a required key in the environment. -/
def env_get (e : Env) (k : Str) : Option Str :=
  if k = str "NEWS_API_KEY" then e.news_api_key
  else if k = str "OPENAI_API_KEY" then e.openai_api_key
  else if k = str "SERPER_API_KEY" then e.serper_api_key
  else if k = str "EMAIL_FROM" then e.email_from
  else if k = str "EMAIL_PASSWORD" then e.email_password
  else none

/-- The list comprehension of line 52. -/
def missing (e : Env) : List Str :=
  required_names.filter (fun k => !truthy (env_get e k))

/-- Startup check (lines 52-55). -/
def config_check (e : Env) : Except Str Unit :=
  if missing e = [] then Except.ok ()
  else Except.error (str "Variáveis ausentes: " ++ joinSep (str ", ") (missing e) ++ ['\n'])

/-- Line 58: `os.getenv("EMAIL_TO", ENV["EMAIL_FROM"])`; by the time it runs
the check has passed, so the sender is present. -/
def EMAIL_TO (e : Env) : Str :=
  match e.email_to with
  | some t => t
  | none => (e.email_from).getD []

end Pipeline

namespace Bot

/-- Raw provider article as `pesquisar_noticias_ia` reads it with `.get`
(ia_news_bot.py lines 63-64). -/
structure Article where
  title : Option Str
  url : Option Str

/-- Provider envelope as the bot reads it: `data["status"]` is indexed
directly (an absent key raises and is folded into the generic error path
below), and the article list is indexed directly as well. -/
structure Response where
  status : Str
  articles : List Article

/-- Outcome of the whole guarded request block (lines 31-80): a parsed
response, a raised `requests` error (network, timeout, bad HTTP status), or
any other exception (including malformed JSON or a missing key). -/
inductive FetchOutcome where
  | success (r : Response)
  | request_error
  | unexpected_error

/-- Per-article formatting (lines 63-67): keep the entry only when title and
link are truthy, rendering "title - link". -/
def formatar (a : Article) : Option Str :=
  if truthy a.title && truthy a.url then
    some (a.title.getD [] ++ str " - " ++ a.url.getD [])
  else none

/-- Placeholder list returned on a non-"ok" status or an empty article list
(line 70). -/
def PLACEHOLDER_BUSCA : Str := str "Nenhuma notícia de IA encontrada hoje."

/-- The slice bound of line 62: `data["articles"][:5]`. -/
def MAX_NOTICIAS : Nat := 5

/-- Embeds `pesquisar_noticias_ia` (lines 29-80).  The truncated source line
57 (`noticias =`) is completed to the empty list demanded by the appends of
line 67.  Note the order of operations at line 62: the article list is
truncated to its first five entries BEFORE the title/url filter runs.  The
two `except` branches print and fall through with a bare `return`, i.e. they
produce `None`. -/
def pesquisar_noticias_ia : FetchOutcome → Option (List Str)
  | .success r =>
    if r.status = str "ok" && !r.articles.isEmpty then
      some ((r.articles.take MAX_NOTICIAS).filterMap formatar)
    else
      some [PLACEHOLDER_BUSCA]
  | .request_error => none
  | .unexpected_error => none

/-- Opening fragment of the HTML body (line 90). -/
def BOT_HEADER : Str := str "<h1>📰 Últimas Notícias de IA</h1><ul>"

/-- Placeholder list item rendered when `noticias` is falsy (line 92). -/
def PLACEHOLDER_LI : Str := str "<li>Nenhuma notícia disponível hoje.</li>"

/-- Closing fragment of the HTML body (line 96). -/
def BOT_FOOTER : Str :=
  str "</ul><br><p style=" ++ [squote] ++ str "font-size: 0.8em; color: #666;" ++ [squote] ++
    str ">Este é um serviço automatizado. Para cancelar, por favor, desative o bot.</p>"

/-- Body construction of `enviar_email` (lines 89-96): `if not noticias:`
renders the placeholder item for both `None` and the empty list. -/
def corpo_email (noticias : Option (List Str)) : Str :=
  BOT_HEADER ++
    (match noticias with
      | none => PLACEHOLDER_LI
      | some [] => PLACEHOLDER_LI
      | some l => (l.map (fun n2 => str "<li>" ++ n2 ++ str "</li>")).flatten) ++
    BOT_FOOTER

/-- Outcome of the SMTP session (lines 102-105). -/
inductive SmtpOutcome where
  | ok
  | auth_error
  | send_error (m : Str)

/-- Success log line (line 106). -/
def SEND_OK_MSG : Str := str "📤 E-mail de notícias de IA enviado com sucesso!"

/-- First line of the authentication-failure diagnostic (line 109). -/
def AUTH_MSG : Str :=
  str "❌ Erro de autenticação SMTP. Verifique seu EMAIL_REMETENTE e GMAIL_APP_PASSWORD."

/-- Observable result of one bot run (the module has no `sys.exit` after the
startup checks, so a completed run always exits 0). -/
structure Run where
  exit_code : Nat
  email_sent : Bool
  body : Str
  log : Str

/-- Embeds `enviar_email` (lines 82-113) applied to the fetched list and the
SMTP outcome.  The two corrupted header-assignment lines 86-87 (`msg = ...`)
are modelled as the recipient/subject header writes their right-hand sides
indicate; headers do not affect the observables below.  Both `except`
branches only print: the function never re-raises and never exits. -/
def enviar_email (noticias : Option (List Str)) (s : SmtpOutcome) : Run :=
  let body := corpo_email noticias
  match s with
  | .ok => ⟨0, true, body, SEND_OK_MSG⟩
  | .auth_error => ⟨0, false, body, AUTH_MSG⟩
  | .send_error m => ⟨0, false, body, str "❌ Erro ao enviar e-mail: " ++ m⟩

/-- Embeds `tarefa_diaria` (lines 115-120): fetch, then always email. -/
def tarefa_diaria (f : FetchOutcome) (s : SmtpOutcome) : Run :=
  enviar_email (pesquisar_noticias_ia f) s

/-- Environment of `ia_news_bot.py` (lines 16-19). -/
structure Env where
  news_api_key : Option Str
  gmail_app_password : Option Str
  gmail_sender_email : Option Str
  recipient_email : Option Str

/-- Line 18: the sender falls back to a hard-coded address. -/
def EMAIL_REMETENTE (e : Env) : Str :=
  (e.gmail_sender_email).getD (str "jesuegraci@gmail.com")

/-- Line 19: the recipient falls back to a hard-coded address (NOT to the
sender). -/
def EMAIL_DESTINATARIO (e : Env) : Str :=
  (e.recipient_email).getD (str "jesue@ifsc.edu.br")

/-- Diagnostic of lines 22-24. -/
def NEWS_ERROR_MSG : Str :=
  str "ERRO: A variável de ambiente " ++ [squote] ++ str "NEWS_API_KEY" ++ [squote] ++
    str " não está configurada. Por favor, defina-a."

/-- Diagnostic of lines 25-27. -/
def PWD_ERROR_MSG : Str :=
  str "ERRO: A variável de ambiente " ++ [squote] ++ str "GMAIL_APP_PASSWORD" ++ [squote] ++
    str " não está configurada. Por favor, defina-a."

/-- Startup checks (lines 22-27): the first failing check prints its own
diagnostic and exits 1 immediately, so a second missing variable is never
reported. -/
def config_check (e : Env) : Except Str Unit :=
  if !truthy e.news_api_key then Except.error NEWS_ERROR_MSG
  else if !truthy e.gmail_app_password then Except.error PWD_ERROR_MSG
  else Except.ok ()

end Bot

/- ───────── Fixtures and predicates used by the claim theorems ───────── -/

/-- Bot provider articles used to exhibit the truncate-before-filter order of
`ia_news_bot.py` line 62: the first entry lacks a title, the other five are
valid. -/
def c1_articles : List Bot.Article :=
  [⟨none, some (str "u0")⟩, ⟨some (str "t1"), some (str "u1")⟩,
    ⟨some (str "t2"), some (str "u2")⟩, ⟨some (str "t3"), some (str "u3")⟩,
    ⟨some (str "t4"), some (str "u4")⟩, ⟨some (str "t5"), some (str "u5")⟩]

/-- Separation hypotheses under which URL occurrences in the composed bodies
can be counted exactly: the URL is non-empty, avoids the delimiter characters
the composer inserts around it, and occurs in no static fragment nor in any
title, summary, or other article URL of the run. -/
def url_isolated (u : Str) (items : List Agent.Enriched) : Prop :=
  u ≠ [] ∧ '\n' ∉ u ∧ ' ' ∉ u ∧ '<' ∉ u ∧ '>' ∉ u ∧ squote ∉ u ∧
  countOccs u Agent.S_LINK = 0 ∧ countOccs u Agent.HTML_HEADER = 0 ∧
  countOccs u Agent.HTML_FOOTER = 0 ∧ countOccs u Agent.S_LI = 0 ∧
  countOccs u Agent.S_STRONG_BR = 0 ∧ countOccs u Agent.S_BR_HREF = 0 ∧
  countOccs u Agent.S_CLOSE_A = 0 ∧
  ∀ j ∈ items, countOccs u j.titulo = 0 ∧ countOccs u j.resumo_txt = 0 ∧
    countOccs u j.resumo_html = 0 ∧ (j.url ≠ u → countOccs u j.url = 0)


theorem countOccs_nil (p : Str) (hp : p ≠ []) : countOccs p [] = 0 := by
  cases p with
  | nil => exact absurd rfl hp
  | cons c s => simp [countOccs, List.isPrefixOf]

theorem isPrefixOf_false_of_length_lt {p s : Str} (h : s.length < p.length) :
    p.isPrefixOf s = false := by
  by_contra hc
  have hb : p.isPrefixOf s = true := by
    cases hx : p.isPrefixOf s with
    | true => rfl
    | false => exact absurd hx hc
  have := (List.isPrefixOf_iff_prefix.mp hb).length_le
  omega

theorem countOccs_of_length_lt {p : Str} (s : Str) (h : s.length < p.length) :
    countOccs p s = 0 := by
  induction s with
  | nil =>
    have hp : p ≠ [] := by
      intro he; rw [he] at h; simp at h
    exact countOccs_nil p hp
  | cons c t ih =>
    have h1 : t.length < p.length := by simp at h; omega
    simp [countOccs, isPrefixOf_false_of_length_lt h, ih h1]

theorem countOccs_self (p : Str) (hp : p ≠ []) : countOccs p p = 1 := by
  cases p with
  | nil => exact absurd rfl hp
  | cons c s =>
    have hpref : (c :: s).isPrefixOf (c :: s) = true :=
      List.isPrefixOf_iff_prefix.mpr (List.prefix_refl _)
    have hlen : s.length < (c :: s).length := by simp
    simp [countOccs, hpref, countOccs_of_length_lt s hlen]

theorem isPrefixOf_append_of_le {p u : Str} (v : Str) (h : p.length ≤ u.length) :
    p.isPrefixOf (u ++ v) = p.isPrefixOf u := by
  induction p generalizing u with
  | nil => simp [List.isPrefixOf]
  | cons a p ih =>
    cases u with
    | nil => simp at h
    | cons b u =>
      have h1 : p.length ≤ u.length := by simp at h; omega
      simp [List.isPrefixOf, ih h1]

/-- Occurrence counting distributes over an append as long as no occurrence of
`p` straddles the boundary. -/
theorem countOccs_append_of_nostraddle (p s t : Str) (hp : p ≠ [])
    (h : ∀ w, w <:+ s → w ≠ [] → w.length < p.length → p.isPrefixOf (w ++ t) = false) :
    countOccs p (s ++ t) = countOccs p s + countOccs p t := by
  induction s with
  | nil => simp [countOccs_nil p hp]
  | cons c s ih =>
    have hsub : ∀ w, w <:+ s → w ≠ [] → w.length < p.length →
        p.isPrefixOf (w ++ t) = false := by
      intro w hw hne hlt
      exact h w (hw.trans (List.suffix_cons c s)) hne hlt
    rw [List.cons_append]
    show (if p.isPrefixOf (c :: (s ++ t)) then 1 else 0) + countOccs p (s ++ t)
        = ((if p.isPrefixOf (c :: s) then 1 else 0) + countOccs p s) + countOccs p t
    rw [ih hsub]
    have hhead : p.isPrefixOf (c :: (s ++ t)) = p.isPrefixOf (c :: s) := by
      by_cases hle : p.length ≤ (c :: s).length
      · have := isPrefixOf_append_of_le (u := c :: s) t hle
        simpa using this
      · have hlt : (c :: s).length < p.length := by omega
        have h1 : p.isPrefixOf ((c :: s) ++ t) = false :=
          h (c :: s) (List.suffix_refl _) (by simp) hlt
        have h2 : p.isPrefixOf (c :: s) = false := isPrefixOf_false_of_length_lt hlt
        simpa using h1.trans h2.symm
    rw [hhead]
    omega

theorem prefix_of_isPrefixOf_append {p w t : Str} (hw : w.length ≤ p.length)
    (h : p.isPrefixOf (w ++ t) = true) : w <+: p := by
  have hp : p <+: w ++ t := List.isPrefixOf_iff_prefix.mp h
  exact List.prefix_of_prefix_length_le (List.prefix_append w t) hp hw

/-- Splitting an occurrence count at a boundary whose right side starts with a
character that does not occur in the pattern. -/
theorem countOccs_append_cons (p s t : Str) (c : Char) (hp : p ≠ []) (hc : c ∉ p) :
    countOccs p (s ++ c :: t) = countOccs p s + countOccs p (c :: t) := by
  apply countOccs_append_of_nostraddle p s (c :: t) hp
  intro w hw hne hlt
  by_contra hcon
  have htrue : p.isPrefixOf (w ++ c :: t) = true := by
    cases hx : p.isPrefixOf (w ++ c :: t) with
    | true => rfl
    | false => exact absurd hx hcon
  have hwp : w <+: p := prefix_of_isPrefixOf_append (by omega) htrue
  obtain ⟨d, hd⟩ := hwp
  obtain ⟨z, hz⟩ := List.isPrefixOf_iff_prefix.mp htrue
  rw [← hd, List.append_assoc] at hz
  have hdz : d ++ z = c :: t := List.append_cancel_left hz
  have hdne : d ≠ [] := by
    intro he
    rw [he] at hd; simp at hd
    rw [hd] at hlt
    exact lt_irrefl _ hlt
  cases d with
  | nil => exact absurd rfl hdne
  | cons e d2 =>
    have he : e = c := by
      have : e :: (d2 ++ z) = c :: t := by simpa using hdz
      exact (List.cons.injEq _ _ _ _ ▸ this).1
    apply hc
    rw [← hd, he]
    exact List.mem_append_right w (List.mem_cons_self c d2)

/-- Splitting an occurrence count at a boundary whose left side ends with a
character that does not occur in the pattern. -/
theorem countOccs_append_last (p s t : Str) (c : Char) (hp : p ≠ [])
    (hs : s.getLast? = some c) (hc : c ∉ p) :
    countOccs p (s ++ t) = countOccs p s + countOccs p t := by
  apply countOccs_append_of_nostraddle p s t hp
  intro w hw hne hlt
  by_contra hcon
  have htrue : p.isPrefixOf (w ++ t) = true := by
    cases hx : p.isPrefixOf (w ++ t) with
    | true => rfl
    | false => exact absurd hx hcon
  have hwp : w <+: p := prefix_of_isPrefixOf_append (by omega) htrue
  obtain ⟨pre, hpre⟩ := hw
  have hrev : w.reverse.head? = some c := by
    have h1 : (pre ++ w).getLast? = some c := by rw [hpre]; exact hs
    have h2 : (pre ++ w).reverse.head? = some c := by
      rw [List.head?_reverse]; exact h1
    rw [List.reverse_append] at h2
    cases hwr : w.reverse with
    | nil =>
      have : w = [] := by simpa using congrArg List.reverse hwr
      exact absurd this hne
    | cons e wr =>
      rw [hwr] at h2
      simp at h2
      simp [hwr, h2]
  have hcw : c ∈ w := by
    cases hwr : w.reverse with
    | nil =>
      have : w = [] := by simpa using congrArg List.reverse hwr
      exact absurd this hne
    | cons e wr =>
      rw [hwr] at hrev
      simp at hrev
      have : c ∈ w.reverse := by rw [hwr, hrev]; exact List.mem_cons_self c wr
      simpa using this
  exact hc (hwp.subset hcw)

theorem countOccs_singleton (p : Str) (c : Char) (hp : p ≠ []) (hc : c ∉ p) :
    countOccs p [c] = 0 := by
  have h1 : p.isPrefixOf [c] = false := by
    cases hx : p.isPrefixOf [c] with
    | false => rfl
    | true =>
      have hpc : p <+: [c] := List.isPrefixOf_iff_prefix.mp hx
      have : p = [c] := by
        cases p with
        | nil => exact absurd rfl hp
        | cons a q =>
          obtain ⟨z, hz⟩ := hpc
          cases q with
          | nil => simp at hz; simp [hz.1]
          | cons b q2 => simp at hz
      rw [this] at hc
      simp at hc
  simp [countOccs, h1, hp]

/-- Counting occurrences in a `sep.join` where the separator is a single
character absent from the pattern: contributions add up per part. -/
theorem countOccs_joinSep (p : Str) (c : Char) (hp : p ≠ []) (hc : c ∉ p)
    (parts : List Str) :
    countOccs p (joinSep [c] parts) = (parts.map (countOccs p)).sum := by
  induction parts with
  | nil => simp [joinSep, countOccs_nil p hp]
  | cons x xs ih =>
    cases xs with
    | nil => simp [joinSep]
    | cons y ys =>
      show countOccs p (x ++ [c] ++ joinSep [c] (y :: ys)) = _
      rw [List.append_assoc]
      have h1 : countOccs p (x ++ ([c] ++ joinSep [c] (y :: ys)))
          = countOccs p x + countOccs p ([c] ++ joinSep [c] (y :: ys)) := by
        have := countOccs_append_cons p x (joinSep [c] (y :: ys)) c hp hc
        simpa using this
      have h2 : countOccs p ([c] ++ joinSep [c] (y :: ys))
          = countOccs p [c] + countOccs p (joinSep [c] (y :: ys)) :=
        countOccs_append_last p [c] (joinSep [c] (y :: ys)) c hp (by simp) hc
      rw [h1, h2, countOccs_singleton p c hp hc, ih]
      simp

/-- Counting occurrences in a `"".join` of fragments that all start with a
character absent from the pattern: contributions add up per fragment. -/
theorem countOccs_flatten (p : Str) (c : Char) (hp : p ≠ []) (hc : c ∉ p)
    (parts : List Str) (hparts : ∀ q ∈ parts, ∃ t0, q = c :: t0) :
    countOccs p parts.flatten = (parts.map (countOccs p)).sum := by
  induction parts with
  | nil => simp [countOccs_nil p hp]
  | cons q rest ih =>
    have hrest : ∀ q2 ∈ rest, ∃ t0, q2 = c :: t0 :=
      fun q2 h2 => hparts q2 (List.mem_cons_of_mem q h2)
    cases rest with
    | nil => simp
    | cons r rest2 =>
      obtain ⟨t0, ht0⟩ := hparts r (by simp)
      show countOccs p (q ++ (r :: rest2).flatten) = _
      have hfl : (r :: rest2).flatten = c :: (t0 ++ rest2.flatten) := by
        rw [ht0]; simp
      rw [hfl, countOccs_append_cons p q _ c hp hc, ← hfl, ih hrest]
      simp

theorem pySplit1_of_not_mem (sep : Char) (s : Str) (h : sep ∉ s) :
    pySplit1 sep s = (s, none) := by
  induction s with
  | nil => rfl
  | cons c t ih =>
    have hcs : c ≠ sep := by
      intro he; exact h (he ▸ List.mem_cons_self c t)
    have ht : sep ∉ t := fun hm => h (List.mem_cons_of_mem c hm)
    simp [pySplit1, hcs, ih ht]

theorem pySplit1_append (sep : Char) (t r : Str) (h : sep ∉ t) :
    pySplit1 sep (t ++ sep :: r) = (t, some r) := by
  induction t with
  | nil => simp [pySplit1]
  | cons c u ih =>
    have hcs : c ≠ sep := by
      intro he; exact h (he ▸ List.mem_cons_self c u)
    have hu : sep ∉ u := fun hm => h (List.mem_cons_of_mem c hm)
    simp [pySplit1, hcs, ih hu]

theorem pySplitAll_of_not_mem (sep : Char) (s : Str) (h : sep ∉ s) :
    pySplitAll sep s = [s] := by
  induction s with
  | nil => rfl
  | cons c t ih =>
    have hcs : c ≠ sep := by
      intro he; exact h (he ▸ List.mem_cons_self c t)
    have ht : sep ∉ t := fun hm => h (List.mem_cons_of_mem c hm)
    simp [pySplitAll, hcs, ih ht]

theorem pySplitAll_append (sep : Char) (t r : Str) (h : sep ∉ t) :
    pySplitAll sep (t ++ sep :: r) = t :: pySplitAll sep r := by
  induction t with
  | nil => simp [pySplitAll]
  | cons c u ih =>
    have hcs : c ≠ sep := by
      intro he; exact h (he ▸ List.mem_cons_self c u)
    have hu : sep ∉ u := fun hm => h (List.mem_cons_of_mem c hm)
    rw [List.cons_append]
    have hstep : pySplitAll sep (c :: (u ++ sep :: r)) =
        match pySplitAll sep (u ++ sep :: r) with
        | [] => [[c]]
        | h2 :: t2 => (c :: h2) :: t2 := by
      simp [pySplitAll, hcs]
    rw [hstep, ih hu]

/-- Splitting a `"\n".join` on the separator recovers the parts, provided no
part contains the separator. -/
theorem pySplitAll_joinSep (sep : Char) (parts : List Str) (hne : parts ≠ [])
    (h : ∀ q ∈ parts, sep ∉ q) :
    pySplitAll sep (joinSep [sep] parts) = parts := by
  induction parts with
  | nil => exact absurd rfl hne
  | cons q rest ih =>
    cases rest with
    | nil => exact pySplitAll_of_not_mem sep q (h q (by simp))
    | cons r rest2 =>
      have hq : sep ∉ q := h q (by simp)
      have hrest : ∀ q2 ∈ r :: rest2, sep ∉ q2 :=
        fun q2 h2 => h q2 (List.mem_cons_of_mem q h2)
      show pySplitAll sep (q ++ [sep] ++ joinSep [sep] (r :: rest2)) = _
      rw [List.append_assoc]
      have : [sep] ++ joinSep [sep] (r :: rest2) = sep :: joinSep [sep] (r :: rest2) := by
        simp
      rw [this, pySplitAll_append sep q _ hq, ih (by simp) hrest]

theorem collect_eq_take_filterMap {α β : Type} (maxA : Nat) (mk : α → Option β)
    (arts : List α) : ∀ n, n ≤ maxA →
    collect maxA mk arts n = (arts.filterMap mk).take (maxA - n) := by
  induction arts with
  | nil => intro n h; simp [collect]
  | cons a rest ih =>
    intro n h
    by_cases hn : n = maxA
    · subst hn; simp [collect]
    · have hlt : n < maxA := lt_of_le_of_ne h hn
      cases hmk : mk a with
      | some b =>
        have hrec := ih (n + 1) hlt
        have hsucc : maxA - n = (maxA - (n + 1)) + 1 := by omega
        simp [collect, hn, hmk, hrec, hsucc]
      | none => simp [collect, hn, hmk, ih n h]

/- ───────── Claim C1 ───────── -/

/-- C1 counterexample: on an "ok" response with six articles whose first entry
has no title, the bot fetcher returns only four entries, not the first five
entries with non-empty title and URL — it slices to five provider entries
before filtering, so the sixth (valid) article is never considered. -/
theorem claim_C1_counterexample :
    Bot.pesquisar_noticias_ia (.success ⟨str "ok", c1_articles⟩)
      = some [str "t1 - u1", str "t2 - u2", str "t3 - u3", str "t4 - u4"] ∧
    (c1_articles.filterMap Bot.formatar).take Bot.MAX_NOTICIAS
      = [str "t1 - u1", str "t2 - u2", str "t3 - u3", str "t4 - u4", str "t5 - u5"] ∧
    ([str "t1 - u1", str "t2 - u2", str "t3 - u3", str "t4 - u4"] : List Str)
      ≠ [str "t1 - u1", str "t2 - u2", str "t3 - u3", str "t4 - u4", str "t5 - u5"] := by
  refine ⟨by decide, by decide, by decide⟩

/-- C1 (amended): on an "ok" provider response the agent and pipeline fetchers
return exactly the first `MAX_ARTIGOS` entries whose title and URL are both
truthy, in provider order (filter, then truncate, stopping at the maximum);
the bot variant instead truncates to the first five provider entries and only
then filters, and it substitutes a placeholder when the article list is empty. -/
theorem claim_C1_fetchers (r : Agent.NewsResponse) (hok : r.status = some (str "ok")) :
    Agent.buscar_artigos r
      = Except.ok ((r.articles.filterMap Agent.mk_item).take Agent.MAX_ARTIGOS) ∧
    Pipeline.fetch_ai_headlines r
      = Except.ok ((r.articles.filterMap Pipeline.mk_headline).take Pipeline.MAX_ARTIGOS) ∧
    (∀ br : Bot.Response, br.status = str "ok" → br.articles ≠ [] →
      Bot.pesquisar_noticias_ia (.success br)
        = some ((br.articles.take Bot.MAX_NOTICIAS).filterMap Bot.formatar)) := by
  refine ⟨?_, ?_, ?_⟩
  · have h := collect_eq_take_filterMap Agent.MAX_ARTIGOS Agent.mk_item r.articles 0
      (Nat.zero_le _)
    simp [Agent.buscar_artigos, hok, h]
  · have h := collect_eq_take_filterMap Pipeline.MAX_ARTIGOS Pipeline.mk_headline r.articles 0
      (Nat.zero_le _)
    simp [Pipeline.fetch_ai_headlines, hok, h]
  · intro br h1 h2
    simp [Bot.pesquisar_noticias_ia, h1, List.isEmpty_iff, h2]

/-- C1 witness: the amended statement evaluated on a concrete "ok" response
with one valid and one invalid article. -/
theorem claim_C1_fetchers_witness :
    Agent.buscar_artigos
        ⟨some (str "ok"), none,
          [⟨some (str "t"), some (str "d"), some (str "u"), some (str "s")⟩,
            ⟨none, some (str "d2"), some (str "u2"), none⟩]⟩
      = Except.ok [⟨str "t", str "d", str "u", str "s"⟩] := by
  have h := (claim_C1_fetchers
    ⟨some (str "ok"), none,
      [⟨some (str "t"), some (str "d"), some (str "u"), some (str "s")⟩,
        ⟨none, some (str "d2"), some (str "u2"), none⟩]⟩ rfl).1
  rw [h]
  rfl

/- ───────── Claim C2 ───────── -/

/-- C2 counterexample: in `ia_news_bot.py` a provider status other than "ok"
is NOT fatal — the fetcher returns the placeholder list, and the run then
composes and sends an email, exiting 0. -/
theorem claim_C2_counterexample :
    Bot.pesquisar_noticias_ia (.success ⟨str "error", []⟩)
      = some [Bot.PLACEHOLDER_BUSCA] ∧
    (Bot.tarefa_diaria (.success ⟨str "error", []⟩) .ok).email_sent = true ∧
    (Bot.tarefa_diaria (.success ⟨str "error", []⟩) .ok).exit_code = 0 := by
  refine ⟨by decide, rfl, rfl⟩

/-- C2 (amended): a provider status other than "ok" raises `RuntimeError`
carrying the provider message (default "Erro NewsAPI") in the agent and
pipeline variants, so the agent run exits 1 with no email composed or sent;
in the bot variant it instead yields the placeholder list, the email is still
composed from the placeholder, sent when SMTP succeeds, and the run exits 0. -/
theorem claim_C2_nonok_status :
    (∀ r : Agent.NewsResponse, r.status ≠ some (str "ok") →
      Agent.buscar_artigos r = Except.error ((r.message).getD (str "Erro NewsAPI")) ∧
      ∀ e s, Agent.main (.response r) e s
        = Agent.fatal ((r.message).getD (str "Erro NewsAPI")) false) ∧
    (∀ r : Agent.NewsResponse, r.status ≠ some (str "ok") →
      Pipeline.fetch_ai_headlines r
        = Except.error ((r.message).getD (str "Erro NewsAPI"))) ∧
    (∀ br : Bot.Response, br.status ≠ str "ok" →
      Bot.pesquisar_noticias_ia (.success br) = some [Bot.PLACEHOLDER_BUSCA] ∧
      (∀ s, (Bot.tarefa_diaria (.success br) s).body
          = Bot.corpo_email (some [Bot.PLACEHOLDER_BUSCA]) ∧
        (Bot.tarefa_diaria (.success br) s).exit_code = 0) ∧
      (Bot.tarefa_diaria (.success br) .ok).email_sent = true) := by
  refine ⟨?_, ?_, ?_⟩
  · intro r h
    have hb : Agent.buscar_artigos r
        = Except.error ((r.message).getD (str "Erro NewsAPI")) := by
      simp [Agent.buscar_artigos, h]
    refine ⟨hb, ?_⟩
    intro e s
    simp [Agent.main, hb]
  · intro r h
    simp [Pipeline.fetch_ai_headlines, h]
  · intro br h
    have hp : Bot.pesquisar_noticias_ia (.success br) = some [Bot.PLACEHOLDER_BUSCA] := by
      simp [Bot.pesquisar_noticias_ia, h]
    refine ⟨hp, ?_, ?_⟩
    · intro s
      cases s <;> simp [Bot.tarefa_diaria, Bot.enviar_email, hp]
    · simp [Bot.tarefa_diaria, Bot.enviar_email, hp]

/-- C2 witness: the amended statement evaluated on a concrete response whose
status is "error" with message "bad key". -/
theorem claim_C2_nonok_status_witness :
    Agent.buscar_artigos ⟨some (str "error"), some (str "bad key"), []⟩
      = Except.error (str "bad key") ∧
    Bot.pesquisar_noticias_ia (.success ⟨str "error", []⟩)
      = some [Bot.PLACEHOLDER_BUSCA] := by
  refine ⟨?_, ?_⟩
  · have h := (claim_C2_nonok_status.1 ⟨some (str "error"), some (str "bad key"), []⟩
      (by decide)).1
    simpa using h
  · exact (claim_C2_nonok_status.2.2 ⟨str "error", []⟩ (by decide)).1

/- ───────── Claim C4 ───────── -/

/-- C4 counterexample: in `ia_news_bot.py` a network failure of the search
request is caught inside `pesquisar_noticias_ia`, `tarefa_diaria` continues,
a placeholder email is sent, and the process exits 0 — not a fatal abort. -/
theorem claim_C4_counterexample :
    (Bot.tarefa_diaria .request_error .ok).email_sent = true ∧
    (Bot.tarefa_diaria .request_error .ok).exit_code = 0 := by
  exact ⟨rfl, rfl⟩

/-- C4 (amended): in the agent variant a network failure, timeout or
malformed-JSON error of the search request reaches the single handler of
`main`, which writes the diagnostic to stderr and exits 1 with no email
composed or sent; in the bot variant the error is swallowed, a placeholder
email is composed and (when SMTP succeeds) sent, and the run exits 0. -/
theorem claim_C4_fetch_failure :
    (∀ m e s, Agent.main (.net_error m) e s = Agent.fatal m false ∧
      (Agent.main (.net_error m) e s).exit_code = 1 ∧
      (Agent.main (.net_error m) e s).email_composed = false ∧
      (Agent.main (.net_error m) e s).email_sent = false) ∧
    (∀ s, (Bot.tarefa_diaria .request_error s).exit_code = 0 ∧
      (Bot.tarefa_diaria .request_error s).body
        = Bot.BOT_HEADER ++ Bot.PLACEHOLDER_LI ++ Bot.BOT_FOOTER) ∧
    (Bot.tarefa_diaria .request_error .ok).email_sent = true := by
  refine ⟨?_, ?_, rfl⟩
  · intro m e s
    exact ⟨rfl, rfl, rfl, rfl⟩
  · intro s
    cases s <;> exact ⟨rfl, rfl⟩

/- ───────── Claim C5 ───────── -/

/-- C5 counterexample: `montar_email` of the agent variant has no zero-article
branch — with an empty list the plain-text body is the empty string, so the
composed body is neither non-empty nor carrying a placeholder line. -/
theorem claim_C5_counterexample :
    Agent.txt_body [] = ([] : Str) ∧
    Agent.html_body [] = Agent.HTML_HEADER ++ Agent.HTML_FOOTER := by
  refine ⟨rfl, by simp [Agent.html_body]⟩

/-- C5 (amended): only the bot variant renders a placeholder on zero
qualifying articles — `corpo_email` emits the placeholder list item for both
`None` and the empty list, and an "ok" response with an empty article list
already yields the placeholder search entry; the agent composer instead
produces an empty plain-text body and a header/footer-only HTML body. -/
theorem claim_C5_zero_articles :
    (∀ no : Option (List Str), no = none ∨ no = some [] →
      Bot.corpo_email no = Bot.BOT_HEADER ++ Bot.PLACEHOLDER_LI ++ Bot.BOT_FOOTER) ∧
    (∀ br : Bot.Response, br.status = str "ok" → br.articles = [] →
      Bot.pesquisar_noticias_ia (.success br) = some [Bot.PLACEHOLDER_BUSCA]) ∧
    Agent.txt_body [] = ([] : Str) ∧
    Agent.html_body [] = Agent.HTML_HEADER ++ Agent.HTML_FOOTER := by
  refine ⟨?_, ?_, rfl, by simp [Agent.html_body]⟩
  · intro no h
    rcases h with h | h <;> rw [h] <;> rfl
  · intro br h1 h2
    simp [Bot.pesquisar_noticias_ia, h1, h2]

/-- C5 witness: the amended statement evaluated at `None`, the empty list, and
an "ok" response with no articles. -/
theorem claim_C5_zero_articles_witness :
    Bot.corpo_email none = Bot.BOT_HEADER ++ Bot.PLACEHOLDER_LI ++ Bot.BOT_FOOTER ∧
    Bot.corpo_email (some []) = Bot.BOT_HEADER ++ Bot.PLACEHOLDER_LI ++ Bot.BOT_FOOTER ∧
    Bot.pesquisar_noticias_ia (.success ⟨str "ok", []⟩) = some [Bot.PLACEHOLDER_BUSCA] := by
  refine ⟨claim_C5_zero_articles.1 none (Or.inl rfl),
    claim_C5_zero_articles.1 (some []) (Or.inr rfl),
    claim_C5_zero_articles.2.1 ⟨str "ok", []⟩ rfl rfl⟩

/- ───────── Claim C8 ───────── -/

/-- C8 counterexample: in `ia_news_bot.py` an SMTP authentication failure is
caught and only printed — the run still exits 0, so the failure is not fatal. -/
theorem claim_C8_counterexample :
    (Bot.tarefa_diaria (.success ⟨str "ok", [⟨some (str "t"), some (str "u")⟩]⟩)
        .auth_error).exit_code = 0 ∧
    (Bot.tarefa_diaria (.success ⟨str "ok", [⟨some (str "t"), some (str "u")⟩]⟩)
        .auth_error).email_sent = false := by
  exact ⟨rfl, rfl⟩

/-- C8 (amended): in the agent variant any SMTP failure reaches the handler of
`main` and the run exits 1 (exit 0 happens exactly when the email was sent);
in the bot variant authentication failures and generic transport failures do
produce distinct diagnostics, but neither is fatal: the run always exits 0. -/
theorem claim_C8_smtp_failure :
    (∀ f e m, (Agent.main f e (.smtp_error m)).exit_code = 1 ∧
      (Agent.main f e (.smtp_error m)).email_sent = false) ∧
    (∀ f e s, (Agent.main f e s).exit_code = 0 ↔ (Agent.main f e s).email_sent = true) ∧
    (∀ r : Agent.NewsResponse, r.status = some (str "ok") → ∀ m,
      Agent.main (.response r) none (.smtp_error m) = Agent.fatal m true) ∧
    (∀ no m, (Bot.enviar_email no .auth_error).log = Bot.AUTH_MSG ∧
      (Bot.enviar_email no (.send_error m)).log = str "❌ Erro ao enviar e-mail: " ++ m ∧
      (Bot.enviar_email no .auth_error).log ≠ (Bot.enviar_email no (.send_error m)).log) ∧
    (∀ f s, (Bot.tarefa_diaria f s).exit_code = 0) := by
  refine ⟨?_, ?_, ?_, ?_, ?_⟩
  · intro f e m
    cases f with
    | net_error m2 => exact ⟨rfl, rfl⟩
    | response r =>
      by_cases h : r.status = some (str "ok")
      · cases e with
        | some m2 => simp [Agent.main, Agent.buscar_artigos, h, Agent.fatal]
        | none => simp [Agent.main, Agent.buscar_artigos, h, Agent.fatal]
      · simp [Agent.main, Agent.buscar_artigos, h, Agent.fatal]
  · intro f e s
    cases f with
    | net_error m2 => simp [Agent.main, Agent.fatal]
    | response r =>
      by_cases h : r.status = some (str "ok")
      · cases e with
        | some m2 => simp [Agent.main, Agent.buscar_artigos, h, Agent.fatal]
        | none =>
          cases s with
          | ok => simp [Agent.main, Agent.buscar_artigos, h]
          | smtp_error m2 => simp [Agent.main, Agent.buscar_artigos, h, Agent.fatal]
      · simp [Agent.main, Agent.buscar_artigos, h, Agent.fatal]
  · intro r h m
    simp [Agent.main, Agent.buscar_artigos, h]
  · intro no m
    refine ⟨rfl, rfl, ?_⟩
    show Bot.AUTH_MSG ≠ str "❌ Erro ao enviar e-mail: " ++ m
    intro hcon
    have h7 := congrArg (fun l : Str => l[7]?) hcon
    simp only at h7
    rw [List.getElem?_append, if_pos (by decide)] at h7
    exact absurd h7 (by decide)
  · intro f s
    cases s <;> rfl

/-- C8 witness: the amended statement evaluated on a concrete "ok" response,
enrichment success, and a failing SMTP session. -/
theorem claim_C8_smtp_failure_witness :
    (Agent.main (.response ⟨some (str "ok"), none, []⟩) none (.smtp_error (str "boom"))).exit_code = 1 ∧
    Agent.main (.response ⟨some (str "ok"), none, []⟩) none (.smtp_error (str "boom"))
      = Agent.fatal (str "boom") true ∧
    Bot.AUTH_MSG ≠ str "❌ Erro ao enviar e-mail: " ++ str "boom" := by
  refine ⟨(claim_C8_smtp_failure.1 (.response ⟨some (str "ok"), none, []⟩) none (str "boom")).1,
    claim_C8_smtp_failure.2.2.1 ⟨some (str "ok"), none, []⟩ rfl (str "boom"), ?_⟩
  have h := (claim_C8_smtp_failure.2.2.2.1 none (str "boom")).2.2
  simpa [Bot.enviar_email] using h

/- ───────── Claim C7 ───────── -/

/-- C7 counterexample: with both of the bot's required variables missing, the
startup diagnostic names only NEWS_API_KEY — the missing GMAIL_APP_PASSWORD is
not listed, so the diagnostic does not list exactly all missing parameters. -/
theorem claim_C7_counterexample :
    truthy ((⟨none, none, none, none⟩ : Bot.Env)).news_api_key = false ∧
    truthy ((⟨none, none, none, none⟩ : Bot.Env)).gmail_app_password = false ∧
    Bot.config_check ⟨none, none, none, none⟩ = Except.error Bot.NEWS_ERROR_MSG ∧
    countOccs (str "GMAIL_APP_PASSWORD") Bot.NEWS_ERROR_MSG = 0 := by
  refine ⟨rfl, rfl, rfl, by decide⟩

/-- C7 (amended): the agent and pipeline variants compute the list of exactly
those required names whose value is unset or empty and fail fast with one
diagnostic listing all of them (in dict order); the bot variant checks its two
required names one at a time and reports only the first missing one, and its
sender address is not required at all (it has a hard-coded default). -/
theorem claim_C7_config_check (e1 : Agent.Env) (e2 : Pipeline.Env) (e3 : Bot.Env) :
    (∀ k, k ∈ Agent.missing e1 ↔
      k ∈ Agent.required_names ∧ truthy (Agent.env_get e1 k) = false) ∧
    (Agent.missing e1 = [] → Agent.config_check e1 = Except.ok ()) ∧
    (Agent.missing e1 ≠ [] → Agent.config_check e1
      = Except.error (str "Faltam variáveis: " ++ joinSep (str ", ") (Agent.missing e1) ++ ['\n'])) ∧
    (∀ k, k ∈ Pipeline.missing e2 ↔
      k ∈ Pipeline.required_names ∧ truthy (Pipeline.env_get e2 k) = false) ∧
    (Pipeline.missing e2 = [] → Pipeline.config_check e2 = Except.ok ()) ∧
    (Pipeline.missing e2 ≠ [] → Pipeline.config_check e2
      = Except.error (str "Variáveis ausentes: " ++ joinSep (str ", ") (Pipeline.missing e2) ++ ['\n'])) ∧
    (truthy e3.news_api_key = false → Bot.config_check e3 = Except.error Bot.NEWS_ERROR_MSG) ∧
    (truthy e3.news_api_key = true → truthy e3.gmail_app_password = false →
      Bot.config_check e3 = Except.error Bot.PWD_ERROR_MSG) ∧
    (truthy e3.news_api_key = true → truthy e3.gmail_app_password = true →
      Bot.config_check e3 = Except.ok ()) := by
  refine ⟨?_, ?_, ?_, ?_, ?_, ?_, ?_, ?_, ?_⟩
  · intro k
    simp [Agent.missing, List.mem_filter]
  · intro h
    simp [Agent.config_check, h]
  · intro h
    simp [Agent.config_check, h]
  · intro k
    simp [Pipeline.missing, List.mem_filter]
  · intro h
    simp [Pipeline.config_check, h]
  · intro h
    simp [Pipeline.config_check, h]
  · intro h
    simp [Bot.config_check, h]
  · intro h1 h2
    simp [Bot.config_check, h1, h2]
  · intro h1 h2
    simp [Bot.config_check, h1, h2]

/-- C7 witness: the amended statement evaluated on an environment with every
agent variable missing and a bot environment missing only the password. -/
theorem claim_C7_config_check_witness :
    Agent.missing ⟨none, none, none, none, none⟩ = Agent.required_names ∧
    Agent.config_check ⟨none, none, none, none, none⟩
      = Except.error (str "Faltam variáveis: NEWS_API_KEY, OPENAI_API_KEY, EMAIL_FROM, EMAIL_PASSWORD" ++ ['\n']) ∧
    Bot.config_check ⟨some (str "k"), none, none, none⟩ = Except.error Bot.PWD_ERROR_MSG := by
  have h := claim_C7_config_check ⟨none, none, none, none, none⟩
    ⟨none, none, none, none, none, none⟩ ⟨some (str "k"), none, none, none⟩
  refine ⟨by decide, ?_, h.2.2.2.2.2.2.2.1 rfl rfl⟩
  have h3 := h.2.2.1 (by decide)
  rw [h3]
  rfl

/- ───────── Claim C9 ───────── -/

/-- C9 counterexample: the pipeline variant's maximum is the constant 3, not
10, and the bot's recipient default is a hard-coded address different from the
bot's sender default — with no environment override for either maximum. -/
theorem claim_C9_counterexample :
    Pipeline.MAX_ARTIGOS ≠ 10 ∧
    Bot.EMAIL_DESTINATARIO ⟨none, none, none, none⟩
      ≠ Bot.EMAIL_REMETENTE ⟨none, none, none, none⟩ := by
  exact ⟨by decide, by decide⟩

/-- C9 (amended): when the recipient variable is unset, the agent and pipeline
variants default it to the sender; the bot defaults sender and recipient to
two distinct hard-coded addresses; the maximum article count is a per-variant
constant (agent 10, pipeline 3, bot 5) with no environment override. -/
theorem claim_C9_defaults :
    (∀ e : Agent.Env, e.email_to = none → truthy e.email_from = true →
      Agent.EMAIL_TO e = (e.email_from).getD []) ∧
    (∀ e : Pipeline.Env, e.email_to = none →
      Pipeline.EMAIL_TO e = (e.email_from).getD []) ∧
    Agent.MAX_ARTIGOS = 10 ∧ Pipeline.MAX_ARTIGOS = 3 ∧ Bot.MAX_NOTICIAS = 5 ∧
    (∀ e : Bot.Env, e.recipient_email = none →
      Bot.EMAIL_DESTINATARIO e = str "jesue@ifsc.edu.br") ∧
    (∀ e : Bot.Env, e.gmail_sender_email = none →
      Bot.EMAIL_REMETENTE e = str "jesuegraci@gmail.com") := by
  refine ⟨?_, ?_, rfl, rfl, rfl, ?_, ?_⟩
  · intro e h1 h2
    cases hf : e.email_from with
    | none => rw [hf] at h2; exact absurd h2 (by decide)
    | some s =>
      rw [hf] at h2
      have hs : s.isEmpty = false := by
        simpa [truthy] using h2
      simp [Agent.EMAIL_TO, h1, py_or, hf, hs]
  · intro e h1
    simp [Pipeline.EMAIL_TO, h1]
  · intro e h1
    simp [Bot.EMAIL_DESTINATARIO, h1]
  · intro e h1
    simp [Bot.EMAIL_REMETENTE, h1]

/-- C9 witness: the amended statement evaluated on concrete environments with
the optional variables unset. -/
theorem claim_C9_defaults_witness :
    Agent.EMAIL_TO ⟨some (str "k"), some (str "o"), some (str "me@x"), some (str "p"), none⟩
      = str "me@x" ∧
    Bot.EMAIL_DESTINATARIO ⟨none, none, none, none⟩ = str "jesue@ifsc.edu.br" := by
  refine ⟨?_, claim_C9_defaults.2.2.2.2.2.1 ⟨none, none, none, none⟩ rfl⟩
  have h := claim_C9_defaults.1
    ⟨some (str "k"), some (str "o"), some (str "me@x"), some (str "p"), none⟩ rfl rfl
  simpa using h

/- ───────── Claim C6 ───────── -/

/-- C6 counterexample: summary lines are stripped only of spaces and bullet
characters (`strip(" •")`), not of dashes — a summary line "- a" keeps its
leading dash, although the claim says bullet/dash markers are stripped from
every summary line. -/
theorem claim_C6_counterexample :
    (Agent.resumo_ai (str "T\n- a")).resumo_txt = str "- a" ∧
    str "- a" ≠ str "a" := by
  exact ⟨by decide, by decide⟩

/-- C6 (amended): for a stripped completion text assembled from a title line
and summary lines, `resumo_ai` splits at the first line break; the title line
has every "TÍTULO:" occurrence deleted and spaces, bullets AND dashes stripped
from both ends; each summary line has spaces and bullets (but not dashes)
stripped from both ends, blank lines are dropped, order is preserved, and the
kept lines are joined with "<br>" for HTML and newlines for plain text. -/
theorem claim_C6_enricher (t : Str) (ls : List Str)
    (ht : '\n' ∉ t) (hls : ∀ l ∈ ls, '\n' ∉ l)
    (hstrip : pyStrip pyWs (joinSep ['\n'] (t :: ls)) = joinSep ['\n'] (t :: ls)) :
    Agent.resumo_ai (joinSep ['\n'] (t :: ls)) =
      ⟨pyStrip Agent.TITULO_MARKS (pyReplaceDel Agent.TITULO_PAT t),
        joinSep (str "<br>")
          ((ls.filter (fun ln => !(pyStrip pyWs ln).isEmpty)).map (pyStrip Agent.BULLET_MARKS)),
        joinSep ['\n']
          ((ls.filter (fun ln => !(pyStrip pyWs ln).isEmpty)).map (pyStrip Agent.BULLET_MARKS))⟩ := by
  cases ls with
  | nil =>
    have hj : joinSep ['\n'] [t] = t := rfl
    rw [hj] at hstrip ⊢
    simp only [Agent.resumo_ai, hstrip, pySplit1_of_not_mem '\n' t ht]
    rfl
  | cons r rest =>
    have hJ : joinSep ['\n'] (t :: r :: rest)
        = t ++ '\n' :: joinSep ['\n'] (r :: rest) := by
      show t ++ ['\n'] ++ joinSep ['\n'] (r :: rest) = _
      simp
    have hsplitall := pySplitAll_joinSep '\n' (r :: rest) (by simp) hls
    rw [hJ] at hstrip ⊢
    simp only [Agent.resumo_ai, hstrip, pySplit1_append '\n' t _ ht]
    rw [show ((t, some (joinSep ['\n'] (r :: rest))).2.getD ([] : Str))
        = joinSep ['\n'] (r :: rest) from rfl, hsplitall]

/-- C6 witness: the amended statement evaluated on a concrete completion with
a decorated title line, two bulleted lines and one blank line. -/
theorem claim_C6_enricher_witness :
    Agent.resumo_ai (joinSep ['\n'] [str "TÍTULO: Olá -", str "• a", str "", str "• b"])
      = ⟨str "Olá", str "a<br>b", str "a" ++ '\n' :: str "b"⟩ := by
  have h := claim_C6_enricher (str "TÍTULO: Olá -") [str "• a", str "", str "• b"]
    (by decide) (by decide) (by decide)
  rw [h]
  rfl

/- ───────── Claim C10 ───────── -/

/-- C10 counterexample: `.replace("TÍTULO:", "")` deletes EVERY occurrence of
the marker, not only a leading prefix — with the no-newline response
"A TÍTULO: B" the produced title is "A  B", not "A TÍTULO: B". -/
theorem claim_C10_counterexample :
    (Agent.resumo_ai (str "A TÍTULO: B")).titulo = str "A  B" ∧
    str "A  B" ≠ str "A TÍTULO: B" := by
  exact ⟨by decide, by decide⟩

/-- C10 (amended): if the stripped response contains no line break, the
enricher returns empty plain-text and HTML summaries and takes the whole text
— with every "TÍTULO:" occurrence removed (not only a leading prefix) and
leading/trailing ' ', '•', '-' stripped — as the translated title; in all
cases the summary keeps exactly the non-blank lines of the split, in order,
so it may contain fewer lines than the completion produced. -/
theorem claim_C10_title_only (raw : Str) (hnl : '\n' ∉ raw)
    (hstrip : pyStrip pyWs raw = raw) :
    (Agent.resumo_ai raw).resumo_txt = [] ∧
    (Agent.resumo_ai raw).resumo_html = [] ∧
    (Agent.resumo_ai raw).titulo
      = pyStrip Agent.TITULO_MARKS (pyReplaceDel Agent.TITULO_PAT raw) ∧
    ∀ raw2 : Str,
      ((pySplitAll '\n' (((pySplit1 '\n' (pyStrip pyWs raw2)).2).getD [])).filter
          (fun ln => !(pyStrip pyWs ln).isEmpty)).length
        ≤ (pySplitAll '\n' (((pySplit1 '\n' (pyStrip pyWs raw2)).2).getD [])).length ∧
      (Agent.resumo_ai raw2).resumo_txt = joinSep ['\n']
        (((pySplitAll '\n' (((pySplit1 '\n' (pyStrip pyWs raw2)).2).getD [])).filter
            (fun ln => !(pyStrip pyWs ln).isEmpty)).map (pyStrip Agent.BULLET_MARKS)) := by
  refine ⟨?_, ?_, ?_, ?_⟩
  · simp only [Agent.resumo_ai, hstrip, pySplit1_of_not_mem '\n' raw hnl]
    rfl
  · simp only [Agent.resumo_ai, hstrip, pySplit1_of_not_mem '\n' raw hnl]
    rfl
  · simp only [Agent.resumo_ai, hstrip, pySplit1_of_not_mem '\n' raw hnl]
  · intro raw2
    exact ⟨List.length_filter_le _ _, rfl⟩

/-- C10 witness: the amended statement evaluated on the no-newline response
"A TÍTULO: B". -/
theorem claim_C10_title_only_witness :
    (Agent.resumo_ai (str "A TÍTULO: B")).resumo_txt = [] ∧
    (Agent.resumo_ai (str "A TÍTULO: B")).titulo
      = pyStrip Agent.TITULO_MARKS (pyReplaceDel Agent.TITULO_PAT (str "A TÍTULO: B")) := by
  have h := claim_C10_title_only (str "A TÍTULO: B") (by decide) (by decide)
  exact ⟨h.1, h.2.2.1⟩

/- ───────── Claim C3: counting machinery ───────── -/

theorem countOccs_cons_of_not_mem (p : Str) (c : Char) (s : Str)
    (hp : p ≠ []) (hc : c ∉ p) : countOccs p (c :: s) = countOccs p s := by
  have hfalse : p.isPrefixOf (c :: s) = false := by
    cases hx : p.isPrefixOf (c :: s) with
    | false => rfl
    | true =>
      obtain ⟨z, hz⟩ := List.isPrefixOf_iff_prefix.mp hx
      cases p with
      | nil => exact absurd rfl hp
      | cons a p2 =>
        have hz2 : a :: (p2 ++ z) = c :: s := by simpa using hz
        have ha : a = c := (List.cons.injEq _ _ _ _ ▸ hz2).1
        exact absurd (ha ▸ List.mem_cons_self a p2) hc
  simp [countOccs, hfalse]

/-- Occurrences of an isolated URL in one plain-text block: exactly one when
the block's URL is the pattern, none otherwise. -/
theorem countOccs_txt_block (u : Str) (it : Agent.Enriched)
    (hu : u ≠ []) (hnl : '\n' ∉ u) (hsp : ' ' ∉ u)
    (hlink : countOccs u Agent.S_LINK = 0)
    (htit : countOccs u it.titulo = 0) (hres : countOccs u it.resumo_txt = 0)
    (hurl : it.url ≠ u → countOccs u it.url = 0) :
    countOccs u (Agent.txt_block it) = if it.url = u then 1 else 0 := by
  have hsl : Agent.S_LINK = '\n' :: str "Link: " := rfl
  have hlink2 : countOccs u (str "Link: ") = 0 := by
    rw [hsl, countOccs_cons_of_not_mem u '\n' _ hu hnl] at hlink
    exact hlink
  have e1 : Agent.txt_block it
      = it.titulo ++ '\n' :: (it.resumo_txt ++ '\n' :: (str "Link: " ++ (it.url ++ ['\n']))) := by
    simp [Agent.txt_block, hsl]
  rw [e1, countOccs_append_cons u _ _ '\n' hu hnl,
    countOccs_cons_of_not_mem u '\n' _ hu hnl,
    countOccs_append_cons u _ _ '\n' hu hnl,
    countOccs_cons_of_not_mem u '\n' _ hu hnl,
    countOccs_append_last u (str "Link: ") _ ' ' hu (by decide) hsp,
    countOccs_append_cons u _ _ '\n' hu hnl,
    countOccs_cons_of_not_mem u '\n' _ hu hnl,
    countOccs_nil u hu, htit, hres, hlink2]
  by_cases hq : it.url = u
  · subst hq
    simp [countOccs_self it.url hu]
  · simp [hq, hurl hq]

theorem sum_ite_eq_countP (u : Str) (k : Nat) (items : List Agent.Enriched) :
    (items.map (fun j => if j.url = u then k else 0)).sum
      = k * items.countP (fun j => j.url == u) := by
  induction items with
  | nil => simp
  | cons a l ih =>
    by_cases h : a.url = u <;>
      simp [List.countP_cons, h, ih, Nat.mul_add, Nat.add_comm]

/-- Occurrences of an isolated URL in the plain-text body: one per article
carrying that URL. -/
theorem countOccs_txt_body (u : Str) (items : List Agent.Enriched)
    (hu : u ≠ []) (hnl : '\n' ∉ u) (hsp : ' ' ∉ u)
    (hlink : countOccs u Agent.S_LINK = 0)
    (hitems : ∀ j ∈ items, countOccs u j.titulo = 0 ∧ countOccs u j.resumo_txt = 0 ∧
      (j.url ≠ u → countOccs u j.url = 0)) :
    countOccs u (Agent.txt_body items) = items.countP (fun j => j.url == u) := by
  rw [Agent.txt_body, countOccs_joinSep u '\n' hu hnl, List.map_map]
  have hmap : items.map (countOccs u ∘ Agent.txt_block)
      = items.map (fun j => if j.url = u then 1 else 0) := by
    apply List.map_congr_left
    intro j hj
    exact countOccs_txt_block u j hu hnl hsp hlink (hitems j hj).1 (hitems j hj).2.1
      (hitems j hj).2.2
  rw [hmap, sum_ite_eq_countP u 1 items, Nat.one_mul]

/-- Every HTML fragment joined by `montar_email` opens with a tag character. -/
theorem html_block_head (it : Agent.Enriched) :
    ∃ t0, Agent.html_block it = '<' :: t0 := by
  exact ⟨str "li><strong>" ++ it.titulo ++ Agent.S_STRONG_BR ++ it.resumo_html ++
    Agent.S_BR_HREF ++ it.url ++ Agent.S_QUOTE_GT ++ it.url ++ Agent.S_CLOSE_A, rfl⟩

/-- Occurrences of an isolated URL in one HTML list item: twice (href and
anchor text) when the item's URL is the pattern, none otherwise. -/
theorem countOccs_html_block (u : Str) (it : Agent.Enriched)
    (hu : u ≠ []) (hlt : '<' ∉ u) (hgt : '>' ∉ u) (hq : squote ∉ u)
    (hli : countOccs u Agent.S_LI = 0) (hsb : countOccs u Agent.S_STRONG_BR = 0)
    (hbh : countOccs u Agent.S_BR_HREF = 0) (hca : countOccs u Agent.S_CLOSE_A = 0)
    (htit : countOccs u it.titulo = 0) (hres : countOccs u it.resumo_html = 0)
    (hurl : it.url ≠ u → countOccs u it.url = 0) :
    countOccs u (Agent.html_block it) = if it.url = u then 2 else 0 := by
  have eS : Agent.S_STRONG_BR = '<' :: str "/strong><br>" := rfl
  have eB : Agent.S_BR_HREF = '<' :: (str "br><a href=" ++ [squote]) := rfl
  have eQ : Agent.S_QUOTE_GT = squote :: '>' :: [] := rfl
  have eC : Agent.S_CLOSE_A = '<' :: str "/a></li>" := rfl
  have hsb2 : countOccs u (str "/strong><br>") = 0 := by
    rw [eS, countOccs_cons_of_not_mem u '<' _ hu hlt] at hsb
    exact hsb
  have hca2 : countOccs u (str "/a></li>") = 0 := by
    rw [eC, countOccs_cons_of_not_mem u '<' _ hu hlt] at hca
    exact hca
  have hbh3 : countOccs u (str "br><a href=") = 0 := by
    rw [eB, countOccs_cons_of_not_mem u '<' _ hu hlt,
      countOccs_append_cons u _ _ squote hu hq,
      countOccs_cons_of_not_mem u squote _ hu hq, countOccs_nil u hu] at hbh
    omega
  have e2 : Agent.html_block it
      = Agent.S_LI ++ (it.titulo ++ '<' :: (str "/strong><br>" ++ (it.resumo_html ++
          '<' :: (str "br><a href=" ++ squote :: (it.url ++ squote :: '>' ::
            (it.url ++ '<' :: str "/a></li>")))))) := by
    simp [Agent.html_block, eS, eB, eQ, eC, List.append_assoc]
  rw [e2,
    countOccs_append_last u Agent.S_LI _ '>' hu (by decide) hgt,
    countOccs_append_cons u _ _ '<' hu hlt,
    countOccs_cons_of_not_mem u '<' _ hu hlt,
    countOccs_append_last u (str "/strong><br>") _ '>' hu (by decide) hgt,
    countOccs_append_cons u _ _ '<' hu hlt,
    countOccs_cons_of_not_mem u '<' _ hu hlt,
    countOccs_append_cons u _ _ squote hu hq,
    countOccs_cons_of_not_mem u squote _ hu hq,
    countOccs_append_cons u _ _ squote hu hq,
    countOccs_cons_of_not_mem u squote _ hu hq,
    countOccs_cons_of_not_mem u '>' _ hu hgt,
    countOccs_append_cons u _ _ '<' hu hlt,
    countOccs_cons_of_not_mem u '<' _ hu hlt,
    hli, hsb2, hbh3, hca2, htit, hres]
  by_cases hqq : it.url = u
  · subst hqq
    simp [countOccs_self it.url hu]
  · simp [hqq, hurl hqq]

/-- Occurrences of an isolated URL in the HTML body: two per article carrying
that URL (href attribute plus anchor text). -/
theorem countOccs_html_body (u : Str) (items : List Agent.Enriched)
    (hu : u ≠ []) (hlt : '<' ∉ u) (hgt : '>' ∉ u) (hq : squote ∉ u)
    (hhead : countOccs u Agent.HTML_HEADER = 0) (hfoot : countOccs u Agent.HTML_FOOTER = 0)
    (hli : countOccs u Agent.S_LI = 0) (hsb : countOccs u Agent.S_STRONG_BR = 0)
    (hbh : countOccs u Agent.S_BR_HREF = 0) (hca : countOccs u Agent.S_CLOSE_A = 0)
    (hitems : ∀ j ∈ items, countOccs u j.titulo = 0 ∧ countOccs u j.resumo_html = 0 ∧
      (j.url ≠ u → countOccs u j.url = 0)) :
    countOccs u (Agent.html_body items) = 2 * items.countP (fun j => j.url == u) := by
  have hparts : ∀ q2 ∈ Agent.HTML_HEADER :: items.map Agent.html_block ++ [Agent.HTML_FOOTER],
      ∃ t0, q2 = '<' :: t0 := by
    intro q2 hq2
    rcases List.mem_cons.mp hq2 with h | h
    · exact ⟨str "h1>📰 IA: Manchetes & Resumos</h1><ol>", by rw [h]; rfl⟩
    · rcases List.mem_append.mp h with h2 | h2
      · obtain ⟨j, hj, hjq⟩ := List.mem_map.mp h2
        obtain ⟨t0, ht0⟩ := html_block_head j
        exact ⟨t0, by rw [← hjq, ht0]⟩
      · have : q2 = Agent.HTML_FOOTER := by simpa using h2
        exact ⟨str "/ol><p style=" ++ [squote] ++ str "font-size:0.8em;color:#666" ++ [squote] ++
          str ">Enviado via GitHub Actions + OpenAI API.</p>", by rw [this]; rfl⟩
  rw [Agent.html_body, countOccs_flatten u '<' hu hlt _ hparts]
  simp only [List.map_cons, List.map_append, List.map_map, List.sum_cons, List.sum_append,
    List.map_nil, List.sum_nil, hhead, hfoot]
  have hmap : items.map (countOccs u ∘ Agent.html_block)
      = items.map (fun j => if j.url = u then 2 else 0) := by
    apply List.map_congr_left
    intro j hj
    exact countOccs_html_block u j hu hlt hgt hq hli hsb hbh hca
      (hitems j hj).1 (hitems j hj).2.1 (hitems j hj).2.2
  rw [hmap, sum_ite_eq_countP u 2 items]
  omega

/- ───────── Claim C3 ───────── -/

/-- C3 counterexample: the plain-text body contains a lone article URL once,
but the HTML body contains it twice — once in the href attribute and once as
the anchor text — so "each body contains each URL exactly once" fails. -/
theorem claim_C3_counterexample :
    countOccs (str "q") (Agent.txt_body [⟨str "T", str "R", str "R", str "q"⟩]) = 1 ∧
    countOccs (str "q") (Agent.html_body [⟨str "T", str "R", str "R", str "q"⟩]) = 2 ∧
    (2 : Nat) ≠ 1 := by
  refine ⟨by decide, by decide, by decide⟩

/-- C3 (amended): for an article list in which an article's URL is isolated
(it avoids the composer's delimiter characters and occurs in no other field,
static fragment, or other URL) and is carried by exactly one article, the
plain-text body of `montar_email` contains that URL exactly once and the HTML
body contains it exactly twice (href attribute and anchor text). -/
theorem claim_C3_url_occurrences (items : List Agent.Enriched) (it : Agent.Enriched)
    (hmem : it ∈ items) (hiso : url_isolated it.url items)
    (huniq : items.countP (fun j => j.url == it.url) = 1) :
    countOccs it.url (Agent.txt_body items) = 1 ∧
    countOccs it.url (Agent.html_body items) = 2 := by
  obtain ⟨hu, hnl, hsp, hlt, hgt, hq, hlink, hhead, hfoot, hli, hsb, hbh, hca, hitems⟩ := hiso
  constructor
  · rw [countOccs_txt_body it.url items hu hnl hsp hlink
      (fun j hj => ⟨(hitems j hj).1, (hitems j hj).2.1, (hitems j hj).2.2.2⟩), huniq]
  · rw [countOccs_html_body it.url items hu hlt hgt hq hhead hfoot hli hsb hbh hca
      (fun j hj => ⟨(hitems j hj).1, (hitems j hj).2.2.1, (hitems j hj).2.2.2⟩), huniq]

/-- C3 witness: the amended statement evaluated on a concrete two-article run
with distinct isolated URLs. -/
theorem claim_C3_url_occurrences_witness :
    countOccs (str "ua") (Agent.txt_body
      [⟨str "Ta", str "Ra", str "Ha", str "ua"⟩, ⟨str "Tb", str "Rb", str "Hb", str "ub"⟩]) = 1 ∧
    countOccs (str "ua") (Agent.html_body
      [⟨str "Ta", str "Ra", str "Ha", str "ua"⟩, ⟨str "Tb", str "Rb", str "Hb", str "ub"⟩]) = 2 := by
  exact claim_C3_url_occurrences
    [⟨str "Ta", str "Ra", str "Ha", str "ua"⟩, ⟨str "Tb", str "Rb", str "Hb", str "ub"⟩]
    ⟨str "Ta", str "Ra", str "Ha", str "ua"⟩ (by decide)
    (by unfold url_isolated; decide) (by decide)
